import Mathlib

/- Verification of the rectangle-selection coordinate engine of the
   simple-article-tagger repository.

   The repository contains two near-identical browser modules:
   * `static/pdf-bbox.js` (iframe/pdf.js-viewer based, with template learning);
   * an unnamed standalone module (called `part 0` below) that renders pages
     on its own canvas.
   Machine reals (JS doubles) are modelled by exact rationals; the external
   pdf.js geometry collaborator (PageViewport and its point conversions) is
   modelled by its documented affine transform. -/

/-- A rectangle given by four scalars, as stored by both modules
    (`x1,y1,x2,y2` of a selection). -/
structure Rect where
  x1 : ℚ
  y1 : ℚ
  x2 : ℚ
  y2 : ℚ
deriving DecidableEq, Repr

/-- A 2x3 affine transform `[a b c d e f]` in the layout used by the external
    pdf.js viewport (`Util.applyTransform`). -/
structure Transform where
  a : ℚ
  b : ℚ
  c : ℚ
  d : ℚ
  e : ℚ
  f : ℚ
deriving DecidableEq, Repr

/-- pdf.js `Util.applyTransform`: the forward map used by
    `viewport.convertToViewportPoint`. -/
def applyTransform (m : Transform) (p : ℚ × ℚ) : ℚ × ℚ :=
  (m.a * p.1 + m.c * p.2 + m.e, m.b * p.1 + m.d * p.2 + m.f)

/-- pdf.js `Util.applyInverseTransform`: the inverse map used by
    `viewport.convertToPdfPoint`, written exactly as in the library. -/
def applyInverseTransform (m : Transform) (p : ℚ × ℚ) : ℚ × ℚ :=
  ((p.1 * m.d - p.2 * m.c + m.c * m.f - m.e * m.d) / (m.a * m.d - m.b * m.c),
   (-(p.1 * m.b) + p.2 * m.a + m.e * m.b - m.f * m.a) / (m.a * m.d - m.b * m.c))

/-- The external pdf.js page viewport: its point transform and its pixel size. -/
structure Viewport where
  transform : Transform
  width : ℚ
  height : ℚ
deriving DecidableEq, Repr

/-- The pdf.js `PageViewport` for view box `[0,0,w,h]`, scale `s`, zero offsets
    and rotation `rot` in degrees (already normalised; the viewer only produces
    0, 90, 180, 270).  The transforms are the closed forms of the library's
    constructor for this view box. -/
def mkViewport (w h s : ℚ) (rot : ℕ) : Viewport :=
  if rot = 90 then ⟨⟨0, s, s, 0, 0, 0⟩, h * s, w * s⟩
  else if rot = 180 then ⟨⟨-s, 0, 0, s, w * s, 0⟩, w * s, h * s⟩
  else if rot = 270 then ⟨⟨0, -s, -s, 0, h * s, w * s⟩, h * s, w * s⟩
  else ⟨⟨s, 0, 0, -s, 0, h * s⟩, w * s, h * s⟩

/-- The screen-to-normalized conversion of the `pdf-bbox.js` mouseup handler
    (steps 3 to 6 of `ensureOverlay`): screen corners of the drag are scaled
    by `viewport.width / canvasWidth`, converted with `convertToPdfPoint`,
    and the Y coordinates are stored as `pdfHeight - pdf_y`, min/maxed. -/
def bboxNormalize (vp : Viewport) (pdfHeight canvasWidth : ℚ)
    (startX startY endX endY : ℚ) : Rect :=
  let left := min startX endX
  let top := min startY endY
  let width := |endX - startX|
  let height := |endY - startY|
  let scale := vp.width / canvasWidth
  let p1 := applyInverseTransform vp.transform (left * scale, top * scale)
  let p2 := applyInverseTransform vp.transform ((left + width) * scale, (top + height) * scale)
  { x1 := min p1.1 p2.1
    y1 := min (pdfHeight - p1.2) (pdfHeight - p2.2)
    x2 := max p1.1 p2.1
    y2 := max (pdfHeight - p1.2) (pdfHeight - p2.2) }

/-- The normalized-to-screen conversion of `renderBboxes` in `pdf-bbox.js`
    (steps 3 and 4): stored Y is un-flipped with `pdfHeight - y`, the corners
    go through `convertToViewportPoint`, are scaled by
    `canvasWidth / viewport.width`, and the screen box is min/maxed. -/
def bboxToScreen (vp : Viewport) (pdfHeight canvasWidth : ℚ) (r : Rect) : Rect :=
  let scale := canvasWidth / vp.width
  let q1 := applyTransform vp.transform (r.x1, pdfHeight - r.y1)
  let q2 := applyTransform vp.transform (r.x2, pdfHeight - r.y2)
  let sx1 := q1.1 * scale
  let sy1 := q1.2 * scale
  let sx2 := q2.1 * scale
  let sy2 := q2.2 * scale
  { x1 := min sx1 sx2
    y1 := min sy1 sy2
    x2 := max sx1 sx2
    y2 := max sy1 sy2 }

/-- The screen-to-pdf conversion of the part 0 module's mouseup handler
    (`initSelectionHandlers`): `pdf_x = x / viewport.width * pageSize[2]`,
    `pdf_y = pageSize[3] - y / viewport.height * pageSize[3]` with the screen
    box canonicalised first and the X pair min/maxed on push. -/
def p0Normalize (pageW pageH vw vh : ℚ) (sx sy ex ey : ℚ) : Rect :=
  let x1 := min sx ex
  let y1 := min sy ey
  let x2 := max sx ex
  let y2 := max sy ey
  let px1 := x1 / vw * pageW
  let px2 := x2 / vw * pageW
  let py1 := pageH - y2 / vh * pageH
  let py2 := pageH - y1 / vh * pageH
  { x1 := min px1 px2, y1 := py1, x2 := max px1 px2, y2 := py2 }

/-- A selection ("Mark") of the `pdf-bbox.js` module, as pushed on
    `state.selections`.  The `from_template` and `confidence` keys are only
    present on marks created by `applySuggestion`; absence is modelled by
    `false` / `none`. -/
structure Selection where
  field_id : String
  page : ℕ
  pdf_x1 : ℚ
  pdf_y1 : ℚ
  pdf_x2 : ℚ
  pdf_y2 : ℚ
  page_width : ℚ
  page_height : ℚ
  from_template : Bool
  confidence : Option ℚ
deriving DecidableEq, Repr

/-- The mutable drag state of one `pdf-bbox.js` overlay together with the
    module-level selection store and active field. -/
structure BboxState where
  activeFieldId : Option String
  drag : Option (ℚ × ℚ)
  selections : List Selection
deriving DecidableEq, Repr

/-- The `pdf-bbox.js` mousedown handler: non-primary buttons are ignored; with
    no active field a "select a field" notice is raised (returned boolean) and
    nothing else happens; otherwise the drag start point is recorded.
    Returns (new state, notice raised?). -/
def bboxMousedown (button : ℕ) (point : ℚ × ℚ) (st : BboxState) : BboxState × Bool :=
  if button ≠ 0 then (st, false)
  else
    match st.activeFieldId with
    | none => (st, true)
    | some _ => ({ st with drag := some point }, false)

/-- The selection-creating part of the `pdf-bbox.js` mouseup handler: no-op
    without an active drag; the preview is removed and the drag cleared; drags
    under 4 device pixels in either dimension are discarded; otherwise the
    normalized selection is appended to the store. -/
def bboxMouseup (vp : Viewport) (pdfW pdfH cw : ℚ) (page : ℕ) (endP : ℚ × ℚ)
    (st : BboxState) : BboxState :=
  match st.drag with
  | none => st
  | some (sx, sy) =>
    if |endP.1 - sx| < 4 ∨ |endP.2 - sy| < 4 then { st with drag := none }
    else
      let r := bboxNormalize vp pdfH cw sx sy endP.1 endP.2
      { st with
        drag := none
        selections := st.selections ++
          [{ field_id := st.activeFieldId.getD ""
             page := page
             pdf_x1 := r.x1, pdf_y1 := r.y1, pdf_x2 := r.x2, pdf_y2 := r.y2
             page_width := pdfW, page_height := pdfH
             from_template := false, confidence := none }] }

/-- A selection of the part 0 module (`initSelectionHandlers`). -/
structure P0Selection where
  page : ℕ
  screen_x1 : ℚ
  screen_y1 : ℚ
  screen_x2 : ℚ
  screen_y2 : ℚ
  pdf_x1 : ℚ
  pdf_y1 : ℚ
  pdf_x2 : ℚ
  pdf_y2 : ℚ
  field_id : String
  text : String
deriving DecidableEq, Repr

/-- Module-level state of the part 0 module. -/
structure P0State where
  isDragging : Bool
  dragStart : Option (ℚ × ℚ)
  activeFieldId : Option String
  currentPage : ℕ
  selections : List P0Selection
deriving DecidableEq, Repr

/-- The part 0 mousedown handler: provided the event hits a rendered page
    (`onPage`), it records the drag start and enters the dragging state.  It
    performs no active-field check. -/
def p0Mousedown (onPage : Bool) (point : ℚ × ℚ) (st : P0State) : P0State :=
  if onPage then { st with dragStart := some point, isDragging := true } else st

/-- The part 0 mouseup handler.  The screen box is canonicalised; drags under
    8 pixels in either dimension are discarded; only then is the missing
    active field reported (returned boolean, `showError`); otherwise the
    selection is pushed.  Returns (new state, missing-field notice?). -/
def p0Mouseup (pageW pageH vw vh : ℚ) (endP : ℚ × ℚ) (st : P0State) : P0State × Bool :=
  if st.isDragging = false then (st, false)
  else
    match st.dragStart with
    | none => (st, false)
    | some (dx, dy) =>
      let x1 := min dx endP.1
      let y1 := min dy endP.2
      let x2 := max dx endP.1
      let y2 := max dy endP.2
      let st1 := { st with isDragging := false, dragStart := none }
      if |x2 - x1| < 8 ∨ |y2 - y1| < 8 then (st1, false)
      else
        match st.activeFieldId with
        | none => (st1, true)
        | some fid =>
          let r := p0Normalize pageW pageH vw vh dx dy endP.1 endP.2
          ({ st1 with selections := st.selections ++
              [{ page := st.currentPage
                 screen_x1 := x1, screen_y1 := y1, screen_x2 := x2, screen_y2 := y2
                 pdf_x1 := r.x1, pdf_y1 := r.y1, pdf_x2 := r.x2, pdf_y2 := r.y2
                 field_id := fid, text := "" }] }, false)

/-- Geometry payload of a template suggestion (`suggestion.coords`). -/
structure SuggCoords where
  page : ℕ
  pdf_x1 : ℚ
  pdf_y1 : ℚ
  pdf_x2 : ℚ
  pdf_y2 : ℚ
  page_width : ℚ
  page_height : ℚ
deriving DecidableEq, Repr

/-- One entry of `state.templateSuggestions`. -/
structure TemplateSuggestionEntry where
  coords : SuggCoords
  confidence : ℚ
  sample_count : ℕ
deriving DecidableEq, Repr

/-- The selection built from a template suggestion inside `applySuggestion`. -/
def selectionFromSuggestion (fieldId : String) (g : TemplateSuggestionEntry) : Selection :=
  { field_id := fieldId
    page := g.coords.page
    pdf_x1 := g.coords.pdf_x1, pdf_y1 := g.coords.pdf_y1
    pdf_x2 := g.coords.pdf_x2, pdf_y2 := g.coords.pdf_y2
    page_width := g.coords.page_width, page_height := g.coords.page_height
    from_template := true
    confidence := some g.confidence }

/-- The store update of `applySuggestion` in `pdf-bbox.js`: `none` when the
    field has no suggestion (a notice is shown and the store is untouched);
    otherwise every existing mark of the field is filtered out and the
    template mark is pushed. -/
def applySuggestion (suggestions : String → Option TemplateSuggestionEntry)
    (fieldId : String) (sels : List Selection) : Option (List Selection) :=
  match suggestions fieldId with
  | none => none
  | some g =>
    some ((sels.filter fun s => s.field_id ≠ fieldId) ++ [selectionFromSuggestion fieldId g])

/-- The separator chosen by `defaultApplyExtractedText` when a field already
    holds text (lines 117 to 123 of `pdf-bbox.js`). -/
def separatorFor (fieldId : String) : String :=
  if fieldId = "references_ru" ∨ fieldId = "references_en" then "\n"
  else if fieldId = "keywords" ∨ fieldId = "keywords_en" then ", "
  else " "

/-- JavaScript's `String.prototype.trim`: strips leading and trailing
    whitespace. -/
def jsTrim (s : String) : String :=
  ⟨((s.data.dropWhile Char.isWhitespace).reverse.dropWhile Char.isWhitespace).reverse⟩

/-- `defaultApplyExtractedText` of `pdf-bbox.js`: returns the new value of the
    target field.  `proc` stands for the optional field-class post-processors
    installed on `window` (keywords/DOI/UDC/funding etc.), which receive the
    trimmed text; when no processor is installed `proc` is the identity.
    Falsy `fieldId`/`text` leave the field unchanged; a blank field is set to
    the processed value; otherwise the trimmed old value, the field-class
    separator and the processed value are concatenated. -/
def defaultApplyExtractedText (proc : String → String)
    (fieldId fieldValue text : String) : String :=
  if fieldId = "" ∨ text = "" then fieldValue
  else
    let value := proc (jsTrim text)
    if jsTrim fieldValue ≠ "" then jsTrim fieldValue ++ separatorFor fieldId ++ value
    else value

/-- Observable actions of the tail of the `pdf-bbox.js` mouseup handler, in
    program order (lines 391 to 452). -/
inductive UiEvent where
  | pushMark (s : Selection)
  | render
  | sendExtractRequest
  | applyText (fieldId : String) (t : String)
  | saveTemplate (fieldId : String)
deriving DecidableEq, Repr

/-- Result of the asynchronous extraction request: the fetch may throw, the
    response may carry no text, or it carries the extracted text. -/
inductive ExtractOutcome where
  | requestFailed
  | noText
  | extractedText (t : String)
deriving DecidableEq, Repr

/-- The ordered effects of the mouseup tail: the mark is pushed and rendered,
    the request is sent, and only a truthy extracted text is applied to the
    field (and forwarded to the template store when an ISSN is set).  The
    catch branch of a failed request performs no further effect. -/
def mouseupTail (sel : Selection) (issn : Option String)
    (outcome : ExtractOutcome) : List UiEvent :=
  [UiEvent.pushMark sel, UiEvent.render, UiEvent.sendExtractRequest] ++
    match outcome with
    | ExtractOutcome.requestFailed => []
    | ExtractOutcome.noText => []
    | ExtractOutcome.extractedText t =>
      if t = "" then []
      else
        UiEvent.applyText sel.field_id t ::
          (match issn with
           | none => []
           | some _ => [UiEvent.saveTemplate sel.field_id])

/-- The part of the document state the mouseup tail can touch: the selection
    store and the value of the mark's target field. -/
structure FieldDoc where
  selections : List Selection
  fieldValue : String
deriving DecidableEq, Repr

/-- Effect of one event on the document state. -/
def applyEvent (proc : String → String) (doc : FieldDoc) (e : UiEvent) : FieldDoc :=
  match e with
  | UiEvent.pushMark s => { doc with selections := doc.selections ++ [s] }
  | UiEvent.applyText fid t =>
    { doc with fieldValue := defaultApplyExtractedText proc fid doc.fieldValue t }
  | _ => doc

/-- Replay of an event list on the document state. -/
def runEvents (proc : String → String) (doc : FieldDoc) (es : List UiEvent) : FieldDoc :=
  es.foldl (applyEvent proc) doc

/-- JavaScript's `((r % 360) + 360) % 360` on integers (`%` is the truncated
    remainder), as written in `normalizeRotation` and `applyRotation`. -/
def jsMod360 (r : ℤ) : ℤ :=
  Int.tmod (Int.tmod r 360 + 360) 360

/-- `normalizeRotation` of `pdf-bbox.js` (lines 37 to 44): maps a point of the
    rotated space back; any normalized rotation other than 90/180/270 falls
    through to the identity. -/
def normalizeRotation (p : ℚ × ℚ) (r : ℤ) (w h : ℚ) : ℚ × ℚ :=
  let rot := jsMod360 r
  if rot = 90 then (p.2, w - p.1)
  else if rot = 180 then (w - p.1, h - p.2)
  else if rot = 270 then (h - p.2, p.1)
  else p

/-- `applyRotation` of `pdf-bbox.js` (lines 46 to 53). -/
def applyRotation (p : ℚ × ℚ) (r : ℤ) (w h : ℚ) : ℚ × ℚ :=
  let rot := jsMod360 r
  if rot = 90 then (w - p.2, p.1)
  else if rot = 180 then (w - p.1, h - p.2)
  else if rot = 270 then (p.2, h - p.1)
  else p

/-- Error taxonomy of the specification for rotation handling. -/
inductive RotationError where
  | unsupportedRotation
deriving DecidableEq, Repr

/-- The rotation transform as the specification words it: the input is
    normalized modulo 360, multiples of 90 degrees are applied, and every
    other normalized value fails with `UnsupportedRotation`.  (Stated for
    comparison with the source's `applyRotation`.) -/
def applyRotationSpec (p : ℚ × ℚ) (r : ℤ) (w h : ℚ) :
    Except RotationError (ℚ × ℚ) :=
  let rot := jsMod360 r
  if rot = 0 ∨ rot = 90 ∨ rot = 180 ∨ rot = 270 then
    Except.ok (applyRotation p r w h)
  else
    Except.error RotationError.unsupportedRotation

/-- Modelled from the spec: the server-side Template Engine (spec section 4.4)
    is not part of `src/`; only its HTTP endpoints are called by
    `pdf-bbox.js`.  A sample is one historical mark's geometry plus the page
    size at capture time. -/
structure TSample where
  x1 : ℚ
  y1 : ℚ
  x2 : ℚ
  y2 : ℚ
  pw : ℚ
  ph : ℚ
deriving DecidableEq, Repr

/-- Modelled from the spec: a sample's rectangle rescaled proportionally from
    its captured page size to the target page size. -/
def rescaleSample (t : TSample) (tw th : ℚ) : Rect :=
  ⟨t.x1 * (tw / t.pw), t.y1 * (th / t.ph), t.x2 * (tw / t.pw), t.y2 * (th / t.ph)⟩

/-- Arithmetic mean of a list of rationals (0 for the empty list). -/
def qMean (xs : List ℚ) : ℚ := xs.sum / xs.length

/-- Mean absolute deviation of a list of rationals. -/
def meanAbsDev (xs : List ℚ) : ℚ := qMean (xs.map fun v => |v - qMean xs|)

/-- Modelled from the spec: the positional spread of the rescaled sample
    rectangles, a normalized mean absolute deviation of the four corner
    coordinates (X deviations normalized by the target width, Y deviations by
    the target height). -/
def spreadOf (rs : List Rect) (tw th : ℚ) : ℚ :=
  (meanAbsDev (rs.map Rect.x1) / tw + meanAbsDev (rs.map Rect.x2) / tw +
   meanAbsDev (rs.map Rect.y1) / th + meanAbsDev (rs.map Rect.y2) / th) / 4

/-- Modelled from the spec: confidence combines a saturating count factor
    `n / (n + k)` (with k = 2) with a multiplicative agreement factor that
    decreases as the spread grows. -/
def confidenceOf (n : ℕ) (sp : ℚ) : ℚ :=
  ((n : ℚ) / ((n : ℚ) + 2)) * (1 / (1 + 4 * sp))

/-- Element-wise mean rectangle of a list of rectangles. -/
def meanRect (rs : List Rect) : Rect :=
  ⟨qMean (rs.map Rect.x1), qMean (rs.map Rect.y1),
   qMean (rs.map Rect.x2), qMean (rs.map Rect.y2)⟩

/-- A computed template suggestion. -/
structure TSuggestion where
  rect : Rect
  confidence : ℚ
  sample_count : ℕ
deriving DecidableEq, Repr

/-- Modelled from the spec: `suggest` returns `null` without samples and
    otherwise the element-wise mean of the rescaled samples together with the
    count/agreement confidence. -/
def suggest (samples : List TSample) (tw th : ℚ) : Option TSuggestion :=
  if samples.isEmpty then none
  else
    let rs := samples.map fun t => rescaleSample t tw th
    some ⟨meanRect rs, confidenceOf samples.length (spreadOf rs tw th), samples.length⟩

/-- Confidence of `suggest`, 0 when no suggestion exists. -/
def suggestConfidence (samples : List TSample) (tw th : ℚ) : ℚ :=
  match suggest samples tw th with
  | none => 0
  | some g => g.confidence

/-- A second sample whose four corners are offset by 50 percent of the page
    dimensions relative to `t` (same capture page size). -/
def offsetSample (t : TSample) : TSample :=
  ⟨t.x1 + t.pw / 2, t.y1 + t.ph / 2, t.x2 + t.pw / 2, t.y2 + t.ph / 2, t.pw, t.ph⟩

/- =====================  Theorems  ===================== -/

theorem min_add_abs_sub (x y : ℚ) : min x y + |y - x| = max x y := by
  rcases le_total x y with hxy | hxy
  · rw [min_eq_left hxy, max_eq_right hxy, abs_of_nonneg (sub_nonneg.mpr hxy)]
    ring
  · rw [min_eq_right hxy, max_eq_left hxy, abs_of_nonpos (sub_nonpos.mpr hxy)]
    ring

theorem invT_rot0 (w h s : ℚ) (hs : s ≠ 0) (v : ℚ × ℚ) :
    applyInverseTransform (mkViewport w h s 0).transform v = (v.1 / s, h - v.2 / s) := by
  simp only [mkViewport, applyInverseTransform]
  norm_num [Prod.ext_iff]
  constructor
  · field_simp
    ring
  · field_simp
    ring

theorem bboxNormalize_rot0 (w h s cw sx sy ex ey : ℚ) (hs : s ≠ 0) (hwc : 0 ≤ w / cw) :
    bboxNormalize (mkViewport w h s 0) h cw sx sy ex ey =
      ⟨min sx ex * (w / cw), min sy ey * (w / cw), max sx ex * (w / cw), max sy ey * (w / cw)⟩ := by
  have hvw : (mkViewport w h s 0).width = w * s := by norm_num [mkViewport]
  have key : ∀ t : ℚ, t * (w * s / cw) / s = t * (w / cw) := by
    intro t
    rw [mul_div_assoc, div_div, mul_comm cw s, ← div_div, mul_div_assoc, div_self hs, mul_one]
  simp only [bboxNormalize, hvw, invT_rot0 w h s hs, key, min_add_abs_sub, sub_sub_cancel]
  rw [Rect.mk.injEq]
  refine ⟨?_, ?_, ?_, ?_⟩
  · exact min_eq_left (mul_le_mul_of_nonneg_right min_le_max hwc)
  · exact min_eq_left (mul_le_mul_of_nonneg_right min_le_max hwc)
  · exact max_eq_right (mul_le_mul_of_nonneg_right min_le_max hwc)
  · exact max_eq_right (mul_le_mul_of_nonneg_right min_le_max hwc)

theorem fwdflip_rot0 (w h s : ℚ) (x y : ℚ) :
    applyTransform (mkViewport w h s 0).transform (x, h - y) = (s * x, s * y) := by
  simp only [mkViewport, applyTransform]
  norm_num [Prod.ext_iff]
  ring

theorem bboxToScreen_rot0 (w h s cw : ℚ) (r : Rect) (hs : s ≠ 0)
    (h1 : r.x1 ≤ r.x2) (h2 : r.y1 ≤ r.y2) (hcw : 0 ≤ cw / w) :
    bboxToScreen (mkViewport w h s 0) h cw r =
      ⟨r.x1 * (cw / w), r.y1 * (cw / w), r.x2 * (cw / w), r.y2 * (cw / w)⟩ := by
  have hvw : (mkViewport w h s 0).width = w * s := by norm_num [mkViewport]
  have key : ∀ t : ℚ, s * t * (cw / (w * s)) = t * (cw / w) := by
    intro t
    rcases eq_or_ne w 0 with hw | hw
    · simp [hw]
    · field_simp
      ring
  simp only [bboxToScreen, hvw, fwdflip_rot0, key]
  rw [Rect.mk.injEq]
  exact ⟨min_eq_left (mul_le_mul_of_nonneg_right h1 hcw),
    min_eq_left (mul_le_mul_of_nonneg_right h2 hcw),
    max_eq_right (mul_le_mul_of_nonneg_right h1 hcw),
    max_eq_right (mul_le_mul_of_nonneg_right h2 hcw)⟩

theorem rt_rot0 (w h s cw sx sy ex ey : ℚ) (hw : 0 < w) (hh : 0 < h) (hs : 0 < s) (hcw : 0 < cw) :
    bboxToScreen (mkViewport w h s 0) h cw (bboxNormalize (mkViewport w h s 0) h cw sx sy ex ey) =
      ⟨min sx ex, min sy ey, max sx ex, max sy ey⟩ := by
  rw [bboxNormalize_rot0 w h s cw sx sy ex ey hs.ne' (by positivity)]
  rw [bboxToScreen_rot0 w h s cw _ hs.ne'
    (mul_le_mul_of_nonneg_right min_le_max (by positivity))
    (mul_le_mul_of_nonneg_right min_le_max (by positivity)) (by positivity)]
  rw [Rect.mk.injEq]
  have hone : w / cw * (cw / w) = 1 := by field_simp
  refine ⟨?_, ?_, ?_, ?_⟩ <;> rw [mul_assoc, hone, mul_one]

theorem scale_div_cancel (X s cw : ℚ) (hs : s ≠ 0) (t : ℚ) :
    t * (X * s / cw) / s = t * (X / cw) := by
  rw [mul_div_assoc, div_div, mul_comm cw s, ← div_div, mul_div_assoc, div_self hs, mul_one]

theorem scale_mul_cancel (X s cw : ℚ) (hs : s ≠ 0) (t : ℚ) :
    s * t * (cw / (X * s)) = t * (cw / X) := by
  rcases eq_or_ne X 0 with hX | hX
  · simp [hX]
  · field_simp
    ring

theorem invT_rot90 (w h s : ℚ) (hs : s ≠ 0) (v : ℚ × ℚ) :
    applyInverseTransform (mkViewport w h s 90).transform v = (v.2 / s, v.1 / s) := by
  simp only [mkViewport, applyInverseTransform]
  norm_num [Prod.ext_iff]
  constructor <;> (field_simp; ring)

theorem invT_rot180 (w h s : ℚ) (hs : s ≠ 0) (v : ℚ × ℚ) :
    applyInverseTransform (mkViewport w h s 180).transform v = (w - v.1 / s, v.2 / s) := by
  simp only [mkViewport, applyInverseTransform]
  norm_num [Prod.ext_iff]
  constructor <;> (field_simp; ring)

theorem invT_rot270 (w h s : ℚ) (hs : s ≠ 0) (v : ℚ × ℚ) :
    applyInverseTransform (mkViewport w h s 270).transform v = (w - v.2 / s, h - v.1 / s) := by
  simp only [mkViewport, applyInverseTransform]
  norm_num [Prod.ext_iff]
  constructor <;> (field_simp; ring)

theorem fwdflip_rot90 (w h s : ℚ) (x y : ℚ) :
    applyTransform (mkViewport w h s 90).transform (x, h - y) = (s * (h - y), s * x) := by
  simp only [mkViewport, applyTransform]
  norm_num [Prod.ext_iff]

theorem fwdflip_rot180 (w h s : ℚ) (x y : ℚ) :
    applyTransform (mkViewport w h s 180).transform (x, h - y) = (s * (w - x), s * (h - y)) := by
  simp only [mkViewport, applyTransform]
  norm_num [Prod.ext_iff]
  ring

theorem fwdflip_rot270 (w h s : ℚ) (x y : ℚ) :
    applyTransform (mkViewport w h s 270).transform (x, h - y) = (s * y, s * (w - x)) := by
  simp only [mkViewport, applyTransform]
  norm_num [Prod.ext_iff]
  constructor <;> ring_nf

theorem bboxNormalize_rot90 (w h s cw sx sy ex ey : ℚ) (hs : s ≠ 0) (hhc : 0 ≤ h / cw) :
    bboxNormalize (mkViewport w h s 90) h cw sx sy ex ey =
      ⟨min sy ey * (h / cw), h - max sx ex * (h / cw),
       max sy ey * (h / cw), h - min sx ex * (h / cw)⟩ := by
  have hvw : (mkViewport w h s 90).width = h * s := by norm_num [mkViewport]
  simp only [bboxNormalize, hvw, invT_rot90 w h s hs, scale_div_cancel h s cw hs,
    min_add_abs_sub]
  rw [Rect.mk.injEq]
  refine ⟨min_eq_left (mul_le_mul_of_nonneg_right min_le_max hhc),
    min_eq_right (sub_le_sub_left (mul_le_mul_of_nonneg_right min_le_max hhc) h),
    max_eq_right (mul_le_mul_of_nonneg_right min_le_max hhc),
    max_eq_left (sub_le_sub_left (mul_le_mul_of_nonneg_right min_le_max hhc) h)⟩

theorem bboxToScreen_rot90 (w h s cw : ℚ) (r : Rect) (hs : s ≠ 0)
    (h1 : r.x1 ≤ r.x2) (h2 : r.y1 ≤ r.y2) (hch : 0 ≤ cw / h) :
    bboxToScreen (mkViewport w h s 90) h cw r =
      ⟨(h - r.y2) * (cw / h), r.x1 * (cw / h), (h - r.y1) * (cw / h), r.x2 * (cw / h)⟩ := by
  have hvw : (mkViewport w h s 90).width = h * s := by norm_num [mkViewport]
  simp only [bboxToScreen, hvw, fwdflip_rot90, scale_mul_cancel h s cw hs]
  rw [Rect.mk.injEq]
  refine ⟨min_eq_right (mul_le_mul_of_nonneg_right (sub_le_sub_left h2 h) hch),
    min_eq_left (mul_le_mul_of_nonneg_right h1 hch),
    max_eq_left (mul_le_mul_of_nonneg_right (sub_le_sub_left h2 h) hch),
    max_eq_right (mul_le_mul_of_nonneg_right h1 hch)⟩

theorem rt_rot90 (w h s cw sx sy ex ey : ℚ) (hw : 0 < w) (hh : 0 < h) (hs : 0 < s) (hcw : 0 < cw) :
    bboxToScreen (mkViewport w h s 90) h cw (bboxNormalize (mkViewport w h s 90) h cw sx sy ex ey) =
      ⟨min sx ex, min sy ey, max sx ex, max sy ey⟩ := by
  rw [bboxNormalize_rot90 w h s cw sx sy ex ey hs.ne' (by positivity)]
  rw [bboxToScreen_rot90 w h s cw _ hs.ne'
    (mul_le_mul_of_nonneg_right min_le_max (by positivity))
    (sub_le_sub_left (mul_le_mul_of_nonneg_right min_le_max (by positivity)) h)
    (by positivity)]
  rw [Rect.mk.injEq]
  have hone : h / cw * (cw / h) = 1 := by field_simp
  refine ⟨?_, ?_, ?_, ?_⟩ <;> (try rw [sub_sub_cancel]) <;> rw [mul_assoc, hone, mul_one]

theorem bboxNormalize_rot180 (w h s cw sx sy ex ey : ℚ) (hs : s ≠ 0) (hwc : 0 ≤ w / cw) :
    bboxNormalize (mkViewport w h s 180) h cw sx sy ex ey =
      ⟨w - max sx ex * (w / cw), h - max sy ey * (w / cw),
       w - min sx ex * (w / cw), h - min sy ey * (w / cw)⟩ := by
  have hvw : (mkViewport w h s 180).width = w * s := by norm_num [mkViewport]
  simp only [bboxNormalize, hvw, invT_rot180 w h s hs, scale_div_cancel w s cw hs,
    min_add_abs_sub]
  rw [Rect.mk.injEq]
  refine ⟨min_eq_right (sub_le_sub_left (mul_le_mul_of_nonneg_right min_le_max hwc) w),
    min_eq_right (sub_le_sub_left (mul_le_mul_of_nonneg_right min_le_max hwc) h),
    max_eq_left (sub_le_sub_left (mul_le_mul_of_nonneg_right min_le_max hwc) w),
    max_eq_left (sub_le_sub_left (mul_le_mul_of_nonneg_right min_le_max hwc) h)⟩

theorem bboxToScreen_rot180 (w h s cw : ℚ) (r : Rect) (hs : s ≠ 0)
    (h1 : r.x1 ≤ r.x2) (h2 : r.y1 ≤ r.y2) (hcw : 0 ≤ cw / w) :
    bboxToScreen (mkViewport w h s 180) h cw r =
      ⟨(w - r.x2) * (cw / w), (h - r.y2) * (cw / w),
       (w - r.x1) * (cw / w), (h - r.y1) * (cw / w)⟩ := by
  have hvw : (mkViewport w h s 180).width = w * s := by norm_num [mkViewport]
  simp only [bboxToScreen, hvw, fwdflip_rot180, scale_mul_cancel w s cw hs]
  rw [Rect.mk.injEq]
  refine ⟨min_eq_right (mul_le_mul_of_nonneg_right (sub_le_sub_left h1 w) hcw),
    min_eq_right (mul_le_mul_of_nonneg_right (sub_le_sub_left h2 h) hcw),
    max_eq_left (mul_le_mul_of_nonneg_right (sub_le_sub_left h1 w) hcw),
    max_eq_left (mul_le_mul_of_nonneg_right (sub_le_sub_left h2 h) hcw)⟩

theorem rt_rot180 (w h s cw sx sy ex ey : ℚ) (hw : 0 < w) (hh : 0 < h) (hs : 0 < s) (hcw : 0 < cw) :
    bboxToScreen (mkViewport w h s 180) h cw (bboxNormalize (mkViewport w h s 180) h cw sx sy ex ey) =
      ⟨min sx ex, min sy ey, max sx ex, max sy ey⟩ := by
  rw [bboxNormalize_rot180 w h s cw sx sy ex ey hs.ne' (by positivity)]
  rw [bboxToScreen_rot180 w h s cw _ hs.ne'
    (sub_le_sub_left (mul_le_mul_of_nonneg_right min_le_max (by positivity)) w)
    (sub_le_sub_left (mul_le_mul_of_nonneg_right min_le_max (by positivity)) h)
    (by positivity)]
  rw [Rect.mk.injEq]
  have hone : w / cw * (cw / w) = 1 := by field_simp
  refine ⟨?_, ?_, ?_, ?_⟩ <;> rw [sub_sub_cancel, mul_assoc, hone, mul_one]

theorem bboxNormalize_rot270 (w h s cw sx sy ex ey : ℚ) (hs : s ≠ 0) (hhc : 0 ≤ h / cw) :
    bboxNormalize (mkViewport w h s 270) h cw sx sy ex ey =
      ⟨w - max sy ey * (h / cw), min sx ex * (h / cw),
       w - min sy ey * (h / cw), max sx ex * (h / cw)⟩ := by
  have hvw : (mkViewport w h s 270).width = h * s := by norm_num [mkViewport]
  simp only [bboxNormalize, hvw, invT_rot270 w h s hs, scale_div_cancel h s cw hs,
    min_add_abs_sub, sub_sub_cancel]
  rw [Rect.mk.injEq]
  refine ⟨min_eq_right (sub_le_sub_left (mul_le_mul_of_nonneg_right min_le_max hhc) w),
    min_eq_left (mul_le_mul_of_nonneg_right min_le_max hhc),
    max_eq_left (sub_le_sub_left (mul_le_mul_of_nonneg_right min_le_max hhc) w),
    max_eq_right (mul_le_mul_of_nonneg_right min_le_max hhc)⟩

theorem bboxToScreen_rot270 (w h s cw : ℚ) (r : Rect) (hs : s ≠ 0)
    (h1 : r.x1 ≤ r.x2) (h2 : r.y1 ≤ r.y2) (hch : 0 ≤ cw / h) :
    bboxToScreen (mkViewport w h s 270) h cw r =
      ⟨r.y1 * (cw / h), (w - r.x2) * (cw / h), r.y2 * (cw / h), (w - r.x1) * (cw / h)⟩ := by
  have hvw : (mkViewport w h s 270).width = h * s := by norm_num [mkViewport]
  simp only [bboxToScreen, hvw, fwdflip_rot270, scale_mul_cancel h s cw hs]
  rw [Rect.mk.injEq]
  refine ⟨min_eq_left (mul_le_mul_of_nonneg_right h2 hch),
    min_eq_right (mul_le_mul_of_nonneg_right (sub_le_sub_left h1 w) hch),
    max_eq_right (mul_le_mul_of_nonneg_right h2 hch),
    max_eq_left (mul_le_mul_of_nonneg_right (sub_le_sub_left h1 w) hch)⟩

theorem rt_rot270 (w h s cw sx sy ex ey : ℚ) (hw : 0 < w) (hh : 0 < h) (hs : 0 < s) (hcw : 0 < cw) :
    bboxToScreen (mkViewport w h s 270) h cw (bboxNormalize (mkViewport w h s 270) h cw sx sy ex ey) =
      ⟨min sx ex, min sy ey, max sx ex, max sy ey⟩ := by
  rw [bboxNormalize_rot270 w h s cw sx sy ex ey hs.ne' (by positivity)]
  rw [bboxToScreen_rot270 w h s cw _ hs.ne'
    (sub_le_sub_left (mul_le_mul_of_nonneg_right min_le_max (by positivity)) w)
    (mul_le_mul_of_nonneg_right min_le_max (by positivity))
    (by positivity)]
  rw [Rect.mk.injEq]
  have hone : h / cw * (cw / h) = 1 := by field_simp
  refine ⟨?_, ?_, ?_, ?_⟩ <;> (try rw [sub_sub_cancel]) <;> rw [mul_assoc, hone, mul_one]

/-- Claim C1: for every screen rectangle (given by its drag corners) on a
    rendering surface of width `cw` over a `w` by `h` page at scale `s` with
    rotation in 0/90/180/270, rendering the stored normalized mark back onto a
    surface of the same size reproduces the drawn rectangle.  Over the exact
    rational model the round trip is exact, hence in particular within the
    claimed 1e-6 relative tolerance. -/
theorem screen_roundtrip_exact (w h s cw : ℚ) (rot : ℕ)
    (hw : 0 < w) (hh : 0 < h) (hs : 0 < s) (hcw : 0 < cw)
    (hrot : rot = 0 ∨ rot = 90 ∨ rot = 180 ∨ rot = 270)
    (sx sy ex ey : ℚ) :
    bboxToScreen (mkViewport w h s rot) h cw
        (bboxNormalize (mkViewport w h s rot) h cw sx sy ex ey) =
      ⟨min sx ex, min sy ey, max sx ex, max sy ey⟩ := by
  rcases hrot with hr | hr | hr | hr <;> subst hr
  · exact rt_rot0 w h s cw sx sy ex ey hw hh hs hcw
  · exact rt_rot90 w h s cw sx sy ex ey hw hh hs hcw
  · exact rt_rot180 w h s cw sx sy ex ey hw hh hs hcw
  · exact rt_rot270 w h s cw sx sy ex ey hw hh hs hcw

/-- Witness for C1 at the concrete scenario geometry (rotation 90). -/
theorem screen_roundtrip_exact_witness :
    bboxToScreen (mkViewport 595 842 2 90) 842 1684
        (bboxNormalize (mkViewport 595 842 2 90) 842 1684 100 120 300 150) =
      ⟨min (100 : ℚ) 300, min (120 : ℚ) 150, max (100 : ℚ) 300, max (120 : ℚ) 150⟩ :=
  screen_roundtrip_exact 595 842 2 1684 90 (by norm_num) (by norm_num) (by norm_num)
    (by norm_num) (Or.inr (Or.inl rfl)) 100 120 300 150

/-- Counterexample to claim C2: in `pdf-bbox.js`, the scenario drag (page 595
    by 842 at scale 2, surface width 1190, rotation 0, drag from (100,100) to
    (300,150)) stores `pdf_y1 = 50`, not 767: the module persists
    `pageHeight - pdf_y`, i.e. a top-down Y, so no stored mark with
    `y1 = 767` is produced. -/
theorem scenario_drag_pdfbbox_counterexample :
    (bboxMouseup (mkViewport 595 842 2 0) 595 842 1190 0 (300, 150)
        ⟨some "title", some (100, 100), []⟩).selections =
      [{ field_id := "title", page := 0,
         pdf_x1 := 50, pdf_y1 := 50, pdf_x2 := 150, pdf_y2 := 75,
         page_width := 595, page_height := 842,
         from_template := false, confidence := none }] ∧
    ((50 : ℚ) ≠ 767 ∧ (75 : ℚ) ≠ 792) := by
  constructor
  · norm_num [bboxMouseup, bboxNormalize, mkViewport, applyInverseTransform,
      min_def, max_def, Option.getD]
  · norm_num

/-- Claim C2 as amended: the scenario drag stores width 100 pt and height
    25 pt in both modules, but the two modules disagree on the persisted Y
    convention.  `pdf-bbox.js` stores `y1 = 50`, `y2 = 75` measured top-down
    (the bottom-up values 842-75 = 767 and 842-50 = 792 of the claim are the
    complements of the stored ones), while the part 0 module stores
    `y1 = 767`, `y2 = 792` measured bottom-up as the claim says. -/
theorem scenario_drag_stored_values :
    (bboxMouseup (mkViewport 595 842 2 0) 595 842 1190 0 (300, 150)
        ⟨some "title", some (100, 100), []⟩).selections =
      [{ field_id := "title", page := 0,
         pdf_x1 := 50, pdf_y1 := 50, pdf_x2 := 150, pdf_y2 := 75,
         page_width := 595, page_height := 842,
         from_template := false, confidence := none }] ∧
    ((150 : ℚ) - 50 = 100 ∧ (75 : ℚ) - 50 = 25 ∧
     (842 : ℚ) - 75 = 767 ∧ (842 : ℚ) - 50 = 792) ∧
    p0Normalize 595 842 1190 1684 100 100 300 150 = ⟨50, 767, 150, 792⟩ := by
  refine ⟨?_, by norm_num, ?_⟩
  · norm_num [bboxMouseup, bboxNormalize, mkViewport, applyInverseTransform,
      min_def, max_def, Option.getD]
  · norm_num [p0Normalize, min_def, max_def]

/-- Claim C3: every stored mark rectangle is canonical (`x1 <= x2` and
    `y1 <= y2`) and both mouseup normalizations are invariant under swapping
    the drag's start and end points, in the `pdf-bbox.js` module
    (unconditionally) and in the part 0 module (whose Y canonicity uses the
    nonnegative page height and viewport height). -/
theorem stored_rect_canonical :
    (∀ (vp : Viewport) (pdfH cw sx sy ex ey : ℚ),
      (bboxNormalize vp pdfH cw sx sy ex ey).x1 ≤ (bboxNormalize vp pdfH cw sx sy ex ey).x2 ∧
      (bboxNormalize vp pdfH cw sx sy ex ey).y1 ≤ (bboxNormalize vp pdfH cw sx sy ex ey).y2) ∧
    (∀ (vp : Viewport) (pdfH cw sx sy ex ey : ℚ),
      bboxNormalize vp pdfH cw sx sy ex ey = bboxNormalize vp pdfH cw ex ey sx sy) ∧
    (∀ (pageW pageH vw vh sx sy ex ey : ℚ), 0 ≤ pageH → 0 ≤ vh →
      (p0Normalize pageW pageH vw vh sx sy ex ey).x1 ≤ (p0Normalize pageW pageH vw vh sx sy ex ey).x2 ∧
      (p0Normalize pageW pageH vw vh sx sy ex ey).y1 ≤ (p0Normalize pageW pageH vw vh sx sy ex ey).y2) ∧
    (∀ (pageW pageH vw vh sx sy ex ey : ℚ),
      p0Normalize pageW pageH vw vh sx sy ex ey = p0Normalize pageW pageH vw vh ex ey sx sy) := by
  refine ⟨?_, ?_, ?_, ?_⟩
  · intro vp pdfH cw sx sy ex ey
    exact ⟨min_le_max, min_le_max⟩
  · intro vp pdfH cw sx sy ex ey
    simp only [bboxNormalize]
    rw [min_comm sx ex, min_comm sy ey, abs_sub_comm ex sx, abs_sub_comm ey sy]
  · intro pageW pageH vw vh sx sy ex ey hH hvh
    refine ⟨min_le_max, ?_⟩
    simp only [p0Normalize]
    have hdiv : min sy ey / vh ≤ max sy ey / vh := by
      rcases eq_or_lt_of_le hvh with h0 | h0
      · rw [← h0]
        simp
      · exact (div_le_div_iff_of_pos_right h0).mpr min_le_max
    exact sub_le_sub_left (mul_le_mul_of_nonneg_right hdiv hH) pageH
  · intro pageW pageH vw vh sx sy ex ey
    simp only [p0Normalize]
    rw [min_comm sx ex, min_comm sy ey, max_comm sx ex, max_comm sy ey]

/-- Witness for C3 at the scenario geometry of the part 0 module. -/
theorem stored_rect_canonical_witness :
    (p0Normalize 595 842 1190 1684 100 100 300 150).x1 ≤
        (p0Normalize 595 842 1190 1684 100 100 300 150).x2 ∧
    (p0Normalize 595 842 1190 1684 100 100 300 150).y1 ≤
        (p0Normalize 595 842 1190 1684 100 100 300 150).y2 :=
  stored_rect_canonical.2.2.1 595 842 1190 1684 100 100 300 150 (by norm_num) (by norm_num)

theorem abs_max_sub_min (a b : ℚ) : |max a b - min a b| = |b - a| := by
  rw [abs_of_nonneg (sub_nonneg.mpr min_le_max), max_sub_min_eq_abs, abs_sub_comm]

/-- Counterexample to claim C4: in the part 0 module a completed drag of
    exactly 4 by 4 device pixels (with a field active and a drag in progress)
    creates no selection, because that module's guard discards drags under 8
    pixels in either dimension. -/
theorem min_size_part000_counterexample :
    (p0Mouseup 595 842 1190 1684 (104, 104)
        ⟨true, some (100, 100), some "title", 0, []⟩).1.selections = [] ∧
    ¬ (p0Mouseup 595 842 1190 1684 (104, 104)
        ⟨true, some (100, 100), some "title", 0, []⟩).1.selections.length = 1 := by
  constructor
  · norm_num [p0Mouseup, min_def, max_def]
  · norm_num [p0Mouseup, min_def, max_def]

/-- Claim C4 as amended: the minimum-size guard differs between the two
    modules.  In `pdf-bbox.js` the threshold is 4 device pixels: a drag whose
    width or height is exactly 3 creates no mark, a 4 by 4 drag creates
    exactly one appended mark, and a gesture is discarded exactly when either
    dimension is under 4.  In the part 0 module the threshold is 8 device
    pixels: drags under 8 in either dimension (in particular 4 by 4) are
    discarded, an 8 by 8 drag creates one mark, and a gesture is discarded
    exactly when either dimension is under 8. -/
theorem min_size_thresholds :
    (∀ (vp : Viewport) (pdfW pdfH cw : ℚ) (page : ℕ) (st : BboxState) (sx sy ex ey : ℚ),
      st.drag = some (sx, sy) → (|ex - sx| = 3 ∨ |ey - sy| = 3) →
      (bboxMouseup vp pdfW pdfH cw page (ex, ey) st).selections = st.selections) ∧
    (∀ (vp : Viewport) (pdfW pdfH cw : ℚ) (page : ℕ) (st : BboxState) (sx sy ex ey : ℚ),
      st.drag = some (sx, sy) → |ex - sx| = 4 → |ey - sy| = 4 →
      ∃ sel, (bboxMouseup vp pdfW pdfH cw page (ex, ey) st).selections = st.selections ++ [sel]) ∧
    (∀ (vp : Viewport) (pdfW pdfH cw : ℚ) (page : ℕ) (st : BboxState) (sx sy ex ey : ℚ),
      st.drag = some (sx, sy) →
      ((bboxMouseup vp pdfW pdfH cw page (ex, ey) st).selections = st.selections ↔
        (|ex - sx| < 4 ∨ |ey - sy| < 4))) ∧
    (∀ (pageW pageH vw vh : ℚ) (st : P0State) (dx dy ex ey : ℚ),
      st.isDragging = true → st.dragStart = some (dx, dy) →
      (|ex - dx| < 8 ∨ |ey - dy| < 8) →
      (p0Mouseup pageW pageH vw vh (ex, ey) st).1.selections = st.selections) ∧
    (∀ (pageW pageH vw vh : ℚ) (st : P0State) (dx dy ex ey : ℚ) (fid : String),
      st.isDragging = true → st.dragStart = some (dx, dy) → st.activeFieldId = some fid →
      |ex - dx| = 8 → |ey - dy| = 8 →
      ∃ sel, (p0Mouseup pageW pageH vw vh (ex, ey) st).1.selections = st.selections ++ [sel]) ∧
    (∀ (pageW pageH vw vh : ℚ) (st : P0State) (dx dy ex ey : ℚ) (fid : String),
      st.isDragging = true → st.dragStart = some (dx, dy) → st.activeFieldId = some fid →
      ((p0Mouseup pageW pageH vw vh (ex, ey) st).1.selections = st.selections ↔
        (|ex - dx| < 8 ∨ |ey - dy| < 8))) := by
  refine ⟨?_, ?_, ?_, ?_, ?_, ?_⟩
  · intro vp pdfW pdfH cw page st sx sy ex ey hdrag habs
    have hc : |(ex, ey).1 - sx| < 4 ∨ |(ex, ey).2 - sy| < 4 := by
      rcases habs with h | h
      · left
        rw [show ((ex, ey).1 : ℚ) = ex from rfl, h]
        norm_num
      · right
        rw [show ((ex, ey).2 : ℚ) = ey from rfl, h]
        norm_num
    simp only [bboxMouseup, hdrag]
    rw [if_pos hc]
  · intro vp pdfW pdfH cw page st sx sy ex ey hdrag hx hy
    have hc : ¬ (|(ex, ey).1 - sx| < 4 ∨ |(ex, ey).2 - sy| < 4) := by
      push_neg
      constructor
      · rw [show ((ex, ey).1 : ℚ) = ex from rfl, hx]
      · rw [show ((ex, ey).2 : ℚ) = ey from rfl, hy]
    simp only [bboxMouseup, hdrag]
    rw [if_neg hc]
    exact ⟨_, rfl⟩
  · intro vp pdfW pdfH cw page st sx sy ex ey hdrag
    by_cases hc : |ex - sx| < 4 ∨ |ey - sy| < 4
    · simp only [bboxMouseup, hdrag]
      rw [if_pos hc]
      simpa using hc
    · simp only [bboxMouseup, hdrag]
      rw [if_neg hc]
      simp only [iff_false_intro hc, iff_false]
      intro heq
      have hlen := congrArg List.length heq
      simp at hlen
  · intro pageW pageH vw vh st dx dy ex ey hdragging hstart hsmall
    have hc : |max dx (ex, ey).1 - min dx (ex, ey).1| < 8 ∨
        |max dy (ex, ey).2 - min dy (ex, ey).2| < 8 := by
      rw [show ((ex, ey).1 : ℚ) = ex from rfl, show ((ex, ey).2 : ℚ) = ey from rfl,
        abs_max_sub_min, abs_max_sub_min]
      exact hsmall
    simp only [p0Mouseup, hdragging, hstart]
    norm_num
    rw [if_pos hc]
  · intro pageW pageH vw vh st dx dy ex ey fid hdragging hstart hfid hx hy
    have hc : ¬ (|max dx (ex, ey).1 - min dx (ex, ey).1| < 8 ∨
        |max dy (ex, ey).2 - min dy (ex, ey).2| < 8) := by
      rw [show ((ex, ey).1 : ℚ) = ex from rfl, show ((ex, ey).2 : ℚ) = ey from rfl,
        abs_max_sub_min, abs_max_sub_min, hx, hy]
      norm_num
    simp only [p0Mouseup, hdragging, hstart, hfid]
    norm_num
    rw [if_neg hc]
    exact ⟨_, rfl⟩
  · intro pageW pageH vw vh st dx dy ex ey fid hdragging hstart hfid
    by_cases hc : |ex - dx| < 8 ∨ |ey - dy| < 8
    · have hc2 : |max dx (ex, ey).1 - min dx (ex, ey).1| < 8 ∨
          |max dy (ex, ey).2 - min dy (ex, ey).2| < 8 := by
        rw [show ((ex, ey).1 : ℚ) = ex from rfl, show ((ex, ey).2 : ℚ) = ey from rfl,
          abs_max_sub_min, abs_max_sub_min]
        exact hc
      simp only [p0Mouseup, hdragging, hstart]
      norm_num
      rw [if_pos hc2]
      simpa using hc
    · have hc2 : ¬ (|max dx (ex, ey).1 - min dx (ex, ey).1| < 8 ∨
          |max dy (ex, ey).2 - min dy (ex, ey).2| < 8) := by
        rw [show ((ex, ey).1 : ℚ) = ex from rfl, show ((ex, ey).2 : ℚ) = ey from rfl,
          abs_max_sub_min, abs_max_sub_min]
        exact hc
      simp only [p0Mouseup, hdragging, hstart, hfid]
      norm_num
      rw [if_neg hc2]
      simp only [iff_false_intro hc, iff_false]
      intro heq
      have hlen := congrArg List.length heq
      simp at hlen

/-- Witness for C4: a 3-pixel-wide drag in `pdf-bbox.js` creates no mark, and
    an 8 by 8 drag in the part 0 module creates one. -/
theorem min_size_thresholds_witness :
    (bboxMouseup (mkViewport 595 842 1 0) 595 842 595 0 (103, 150)
        (⟨some "title", some (100, 100), []⟩ : BboxState)).selections =
      (⟨some "title", some (100, 100), []⟩ : BboxState).selections ∧
    (∃ sel, (p0Mouseup 595 842 1190 1684 (108, 108)
        (⟨true, some (100, 100), some "title", 0, []⟩ : P0State)).1.selections =
      (⟨true, some (100, 100), some "title", 0, []⟩ : P0State).selections ++ [sel]) :=
  ⟨min_size_thresholds.1 (mkViewport 595 842 1 0) 595 842 595 0 _ 100 100 103 150 rfl
      (Or.inl (by norm_num)),
   min_size_thresholds.2.2.2.2.1 595 842 1190 1684 _ 100 100 108 108 "title" rfl rfl rfl
      (by norm_num) (by norm_num)⟩

/-- Counterexample to claim C5: the part 0 module's mousedown handler performs
    no active-field check, so with no field active a pointer-down on the page
    does start a drag (the controller leaves Idle), contrary to the claim. -/
theorem pointer_down_part000_counterexample :
    (p0Mousedown true (50, 60) ⟨false, none, none, 0, []⟩).isDragging = true ∧
    (p0Mousedown true (50, 60) ⟨false, none, none, 0, []⟩).dragStart = some (50, 60) ∧
    (⟨false, none, none, 0, []⟩ : P0State).activeFieldId = none := by
  refine ⟨rfl, rfl, rfl⟩

/-- Claim C5 as amended: in `pdf-bbox.js` a primary-button pointer-down with
    no active field is ignored at pointer-down time (state unchanged, the
    "select a field" notice is raised) and a mouseup without an active drag
    changes nothing, so no mark can result.  In the part 0 module the drag
    starts regardless of the active field; the missing-field notice is only
    surfaced at pointer-up (and only for drags that pass the size guard),
    where the gesture is discarded without creating a mark. -/
theorem no_active_field_behavior :
    (∀ (p : ℚ × ℚ) (st : BboxState), st.activeFieldId = none →
      bboxMousedown 0 p st = (st, true)) ∧
    (∀ (vp : Viewport) (pdfW pdfH cw : ℚ) (page : ℕ) (endP : ℚ × ℚ) (st : BboxState),
      st.drag = none → bboxMouseup vp pdfW pdfH cw page endP st = st) ∧
    (∀ (p : ℚ × ℚ) (st : P0State),
      (p0Mousedown true p st).isDragging = true ∧
      (p0Mousedown true p st).dragStart = some p ∧
      (p0Mousedown true p st).activeFieldId = st.activeFieldId) ∧
    (∀ (pageW pageH vw vh : ℚ) (endP : ℚ × ℚ) (st : P0State),
      st.activeFieldId = none →
      (p0Mouseup pageW pageH vw vh endP st).1.selections = st.selections) ∧
    (∀ (pageW pageH vw vh : ℚ) (st : P0State) (dx dy ex ey : ℚ),
      st.activeFieldId = none → st.isDragging = true → st.dragStart = some (dx, dy) →
      ¬ (|ex - dx| < 8 ∨ |ey - dy| < 8) →
      (p0Mouseup pageW pageH vw vh (ex, ey) st).2 = true) := by
  refine ⟨?_, ?_, ?_, ?_, ?_⟩
  · intro p st h
    simp [bboxMousedown, h]
  · intro vp pdfW pdfH cw page endP st h
    simp [bboxMouseup, h]
  · intro p st
    refine ⟨rfl, rfl, rfl⟩
  · intro pageW pageH vw vh endP st h
    obtain ⟨dragging, dstart, afid, pg, sels⟩ := st
    simp only at h
    subst h
    cases dragging
    · simp [p0Mouseup]
    · cases dstart with
      | none => simp [p0Mouseup]
      | some q =>
        obtain ⟨dx, dy⟩ := q
        simp only [p0Mouseup]
        norm_num
        split
        · rfl
        · rfl
  · intro pageW pageH vw vh st dx dy ex ey hf hdragging hstart hbig
    have hc : ¬ (|max dx (ex, ey).1 - min dx (ex, ey).1| < 8 ∨
        |max dy (ex, ey).2 - min dy (ex, ey).2| < 8) := by
      rw [show ((ex, ey).1 : ℚ) = ex from rfl, show ((ex, ey).2 : ℚ) = ey from rfl,
        abs_max_sub_min, abs_max_sub_min]
      exact hbig
    simp only [p0Mouseup, hdragging, hstart, hf]
    norm_num
    rw [if_neg hc]

/-- Witness for C5: a mousedown with no active field in `pdf-bbox.js` raises
    the notice and leaves the state untouched; a large no-field drag in the
    part 0 module raises the missing-field notice at mouseup. -/
theorem no_active_field_behavior_witness :
    bboxMousedown 0 (5, 5) (⟨none, none, []⟩ : BboxState) =
      ((⟨none, none, []⟩ : BboxState), true) ∧
    (p0Mouseup 595 842 1190 1684 (110, 110)
        (⟨true, some (100, 100), none, 0, []⟩ : P0State)).2 = true :=
  ⟨no_active_field_behavior.1 (5, 5) _ rfl,
   no_active_field_behavior.2.2.2.2 595 842 1190 1684 _ 100 100 110 110 rfl rfl rfl
     (by norm_num)⟩

theorem jsMod360_eq (r : ℤ) : jsMod360 r = r % 360 := by
  have hneg : (-r).tmod 360 = -(r.tmod 360) := by
    rw [Int.tmod_def, Int.tmod_def, Int.neg_tdiv]
    ring
  have hbound : -360 < Int.tmod r 360 := by
    rcases le_or_lt 0 r with h | h
    · have := Int.tmod_nonneg 360 h
      omega
    · have h1 : Int.tmod (-r) 360 < 360 := Int.tmod_lt_of_pos (-r) (by norm_num)
      omega
  have hq := Int.tmod_def r 360
  unfold jsMod360
  rw [Int.tmod_eq_emod (by omega) (by norm_num)]
  omega

/-- Counterexample to claim C6: at rotation 45 (normalized value 45, not a
    multiple of 90) the source's transform helpers do not fail: both return
    the input point unchanged, while the specification's transform fails with
    `UnsupportedRotation` there. -/
theorem rotation_no_error_counterexample :
    applyRotation (1, 2) 45 10 20 = (1, 2) ∧
    normalizeRotation (1, 2) 45 10 20 = (1, 2) ∧
    applyRotationSpec (1, 2) 45 10 20 = Except.error RotationError.unsupportedRotation := by
  refine ⟨rfl, rfl, rfl⟩

/-- Claim C6 as amended: every rotation input is normalized modulo 360 before
    use (replacing the input by its normalized value does not change the
    result), but a normalized rotation that is not 90, 180 or 270 does not
    raise any error: `applyRotation` and `normalizeRotation` fall through and
    return the point unchanged (the rotation-0 behaviour). -/
theorem rotation_normalization_identity :
    (∀ (p : ℚ × ℚ) (r : ℤ) (w h : ℚ),
      applyRotation p r w h = applyRotation p (jsMod360 r) w h ∧
      normalizeRotation p r w h = normalizeRotation p (jsMod360 r) w h) ∧
    (∀ (p : ℚ × ℚ) (r : ℤ) (w h : ℚ),
      jsMod360 r ≠ 90 → jsMod360 r ≠ 180 → jsMod360 r ≠ 270 →
      applyRotation p r w h = p ∧ normalizeRotation p r w h = p) := by
  constructor
  · intro p r w h
    have hid : jsMod360 (jsMod360 r) = jsMod360 r := by
      rw [jsMod360_eq, jsMod360_eq, Int.emod_emod_of_dvd _ dvd_rfl]
    simp [applyRotation, normalizeRotation, hid]
  · intro p r w h h90 h180 h270
    constructor
    · simp only [applyRotation]
      rw [if_neg h90, if_neg h180, if_neg h270]
    · simp only [normalizeRotation]
      rw [if_neg h90, if_neg h180, if_neg h270]

/-- Witness for C6: rotation 45 acts as the identity on a concrete point. -/
theorem rotation_normalization_identity_witness :
    applyRotation (3, 4) 45 10 20 = (3, 4) ∧ normalizeRotation (3, 4) 45 10 20 = (3, 4) :=
  rotation_normalization_identity.2 (3, 4) 45 10 20 (by decide) (by decide) (by decide)

/-- Claim C7: when a suggestion exists for `fieldId`, `applySuggestion`
    succeeds and the resulting store holds exactly one mark for that field
    (the template mark, carrying `from_template` and the suggestion's
    confidence), while the marks of every other field are unchanged. -/
theorem apply_suggestion_unique_mark
    (suggestions : String → Option TemplateSuggestionEntry)
    (fieldId : String) (g : TemplateSuggestionEntry) (sels : List Selection)
    (hg : suggestions fieldId = some g) :
    ∃ sels2, applySuggestion suggestions fieldId sels = some sels2 ∧
      sels2.countP (fun s => s.field_id == fieldId) = 1 ∧
      sels2.filter (fun s => s.field_id == fieldId) = [selectionFromSuggestion fieldId g] ∧
      (selectionFromSuggestion fieldId g).from_template = true ∧
      (selectionFromSuggestion fieldId g).confidence = some g.confidence ∧
      sels2.filter (fun s => s.field_id ≠ fieldId) = sels.filter (fun s => s.field_id ≠ fieldId) := by
  refine ⟨(sels.filter fun s => s.field_id ≠ fieldId) ++ [selectionFromSuggestion fieldId g],
    by simp [applySuggestion, hg], ?_, ?_, rfl, rfl, ?_⟩
  · rw [List.countP_append]
    have h0 : (sels.filter fun s => s.field_id ≠ fieldId).countP
        (fun s => s.field_id == fieldId) = 0 := by
      rw [List.countP_eq_zero]
      intro a ha
      rw [List.mem_filter] at ha
      simpa using of_decide_eq_true ha.2
    rw [h0]
    simp [selectionFromSuggestion]
  · rw [List.filter_append]
    have h0 : (sels.filter fun s => s.field_id ≠ fieldId).filter
        (fun s => s.field_id == fieldId) = [] := by
      rw [List.filter_eq_nil_iff]
      intro a ha
      rw [List.mem_filter] at ha
      simpa using of_decide_eq_true ha.2
    rw [h0]
    simp [selectionFromSuggestion]
  · rw [List.filter_append]
    have h1 : List.filter (fun s => decide (s.field_id ≠ fieldId))
        [selectionFromSuggestion fieldId g] = [] := by
      simp [selectionFromSuggestion]
    rw [h1, List.filter_filter]
    simp

/-- Witness for C7: applying a template suggestion for "title" over a store
    that already holds a manual "title" mark and a "doi" mark. -/
theorem apply_suggestion_unique_mark_witness :
    ∃ sels2,
      applySuggestion
          (fun f => if f = "title"
            then some ⟨⟨0, 10, 20, 110, 40, 595, 842⟩, 7/10, 3⟩
            else none)
          "title"
          [{ field_id := "title", page := 0, pdf_x1 := 1, pdf_y1 := 2, pdf_x2 := 3, pdf_y2 := 4,
             page_width := 595, page_height := 842, from_template := false, confidence := none },
           { field_id := "doi", page := 0, pdf_x1 := 5, pdf_y1 := 6, pdf_x2 := 7, pdf_y2 := 8,
             page_width := 595, page_height := 842, from_template := false, confidence := none }] =
        some sels2 ∧
      sels2.countP (fun s => s.field_id == "title") = 1 ∧
      sels2.filter (fun s => s.field_id == "title") =
        [selectionFromSuggestion "title" ⟨⟨0, 10, 20, 110, 40, 595, 842⟩, 7/10, 3⟩] ∧
      (selectionFromSuggestion "title" ⟨⟨0, 10, 20, 110, 40, 595, 842⟩, 7/10, 3⟩).from_template = true ∧
      (selectionFromSuggestion "title" ⟨⟨0, 10, 20, 110, 40, 595, 842⟩, 7/10, 3⟩).confidence =
        some (⟨⟨0, 10, 20, 110, 40, 595, 842⟩, (7 : ℚ)/10, 3⟩ : TemplateSuggestionEntry).confidence ∧
      sels2.filter (fun s => s.field_id ≠ "title") =
        List.filter (fun s => s.field_id ≠ "title")
          [{ field_id := "title", page := 0, pdf_x1 := 1, pdf_y1 := 2, pdf_x2 := 3, pdf_y2 := 4,
             page_width := 595, page_height := 842, from_template := false, confidence := none },
           { field_id := "doi", page := 0, pdf_x1 := 5, pdf_y1 := 6, pdf_x2 := 7, pdf_y2 := 8,
             page_width := 595, page_height := 842, from_template := false, confidence := none }] :=
  apply_suggestion_unique_mark _ "title" _ _ (by simp)

/-- Claim C8: in the mouseup tail the new mark is pushed and rendered before
    the extraction request is sent (the first three effects, in order, for
    every outcome); when the request fails the store still contains the mark
    and the target field's value is untouched; and the mark is in the store
    whatever the outcome. -/
theorem optimistic_update_extraction_failure
    (proc : String → String) (sel : Selection) (issn : Option String) (doc : FieldDoc) :
    (∀ outcome, (mouseupTail sel issn outcome).take 3 =
      [UiEvent.pushMark sel, UiEvent.render, UiEvent.sendExtractRequest]) ∧
    runEvents proc doc (mouseupTail sel issn ExtractOutcome.requestFailed) =
      { selections := doc.selections ++ [sel], fieldValue := doc.fieldValue } ∧
    (∀ outcome, sel ∈ (runEvents proc doc (mouseupTail sel issn outcome)).selections) := by
  refine ⟨?_, rfl, ?_⟩
  · intro outcome
    cases outcome with
    | requestFailed => simp [mouseupTail]
    | noText => simp [mouseupTail]
    | extractedText t =>
      by_cases ht : t = "" <;> cases issn <;> simp [mouseupTail, ht]
  · intro outcome
    cases outcome with
    | requestFailed => simp [runEvents, mouseupTail, applyEvent]
    | noText => simp [runEvents, mouseupTail, applyEvent]
    | extractedText t =>
      by_cases ht : t = "" <;> cases issn <;>
        simp [runEvents, mouseupTail, applyEvent, ht]

theorem qMean_singleton (v : ℚ) : qMean [v] = v := by
  simp [qMean]

theorem qMean_pair_same (v : ℚ) : qMean [v, v] = v := by
  simp [qMean]

theorem qMean_five_same (v : ℚ) : qMean [v, v, v, v, v] = v := by
  simp [qMean]
  ring

theorem meanAbsDev_singleton (v : ℚ) : meanAbsDev [v] = 0 := by
  unfold meanAbsDev
  rw [qMean_singleton]
  simp [qMean]

theorem meanAbsDev_pair_same (v : ℚ) : meanAbsDev [v, v] = 0 := by
  unfold meanAbsDev
  rw [qMean_pair_same]
  simp [qMean]

theorem meanAbsDev_five_same (v : ℚ) : meanAbsDev [v, v, v, v, v] = 0 := by
  unfold meanAbsDev
  rw [qMean_five_same]
  simp [qMean]

theorem meanAbsDev_pair_offset (x d : ℚ) (hd : 0 ≤ d) :
    meanAbsDev [x, x + d] = d / 2 := by
  have hm : qMean [x, x + d] = x + d / 2 := by
    simp [qMean]
    ring
  have h1 : |x - (x + d / 2)| = d / 2 := by
    rw [show x - (x + d / 2) = -(d / 2) by ring, abs_neg, abs_of_nonneg (by positivity)]
  have h2 : |x + d - (x + d / 2)| = d / 2 := by
    rw [show x + d - (x + d / 2) = d / 2 by ring, abs_of_nonneg (by positivity)]
  unfold meanAbsDev
  rw [hm]
  simp only [List.map_cons, List.map_nil, h1, h2]
  simp [qMean]

theorem meanAbsDev_nonneg (xs : List ℚ) : 0 ≤ meanAbsDev xs := by
  unfold meanAbsDev qMean
  refine div_nonneg (List.sum_nonneg ?_) (Nat.cast_nonneg _)
  intro x hx
  rw [List.mem_map] at hx
  obtain ⟨v, hv, rfl⟩ := hx
  exact abs_nonneg _

theorem spreadOf_nonneg (rs : List Rect) (tw th : ℚ) (htw : 0 < tw) (hth : 0 < th) :
    0 ≤ spreadOf rs tw th := by
  unfold spreadOf
  have h1 := meanAbsDev_nonneg (rs.map Rect.x1)
  have h2 := meanAbsDev_nonneg (rs.map Rect.x2)
  have h3 := meanAbsDev_nonneg (rs.map Rect.y1)
  have h4 := meanAbsDev_nonneg (rs.map Rect.y2)
  positivity

theorem spreadOf_singleton (r : Rect) (tw th : ℚ) : spreadOf [r] tw th = 0 := by
  simp [spreadOf, meanAbsDev_singleton]

theorem spreadOf_pair_same (r : Rect) (tw th : ℚ) : spreadOf [r, r] tw th = 0 := by
  simp [spreadOf, meanAbsDev_pair_same]

theorem spreadOf_five_same (r : Rect) (tw th : ℚ) : spreadOf [r, r, r, r, r] tw th = 0 := by
  simp [spreadOf, meanAbsDev_five_same]

theorem spreadOf_pair_offset (r : Rect) (pw ph : ℚ) (hpw : 0 < pw) (hph : 0 < ph) :
    spreadOf [r, ⟨r.x1 + pw / 2, r.y1 + ph / 2, r.x2 + pw / 2, r.y2 + ph / 2⟩] pw ph
      = 1 / 4 := by
  unfold spreadOf
  simp only [List.map_cons, List.map_nil]
  rw [meanAbsDev_pair_offset _ _ (by positivity), meanAbsDev_pair_offset _ _ (by positivity),
    meanAbsDev_pair_offset _ _ (by positivity), meanAbsDev_pair_offset _ _ (by positivity)]
  field_simp
  ring

theorem confidenceOf_nonneg (n : ℕ) (sp : ℚ) (hsp : 0 ≤ sp) : 0 ≤ confidenceOf n sp := by
  unfold confidenceOf
  positivity

theorem confidenceOf_le_one (n : ℕ) (sp : ℚ) (hsp : 0 ≤ sp) : confidenceOf n sp ≤ 1 := by
  unfold confidenceOf
  have h1 : (n : ℚ) / ((n : ℚ) + 2) ≤ 1 := by
    rw [div_le_one (by positivity)]
    linarith
  have h2 : (1 : ℚ) / (1 + 4 * sp) ≤ 1 := by
    rw [div_le_one (by positivity)]
    linarith
  have h3 : (0 : ℚ) ≤ 1 / (1 + 4 * sp) := by positivity
  calc (n : ℚ) / ((n : ℚ) + 2) * (1 / (1 + 4 * sp)) ≤ 1 * (1 / (1 + 4 * sp)) := by
        exact mul_le_mul_of_nonneg_right h1 h3
    _ ≤ 1 * 1 := by exact mul_le_mul_of_nonneg_left h2 (by norm_num)
    _ = 1 := by norm_num

theorem rescaleSample_self (t : TSample) (hpw : t.pw ≠ 0) (hph : t.ph ≠ 0) :
    rescaleSample t t.pw t.ph = ⟨t.x1, t.y1, t.x2, t.y2⟩ := by
  simp [rescaleSample, div_self hpw, div_self hph]

theorem rescaleSample_offset (t : TSample) (hpw : t.pw ≠ 0) (hph : t.ph ≠ 0) :
    rescaleSample (offsetSample t) t.pw t.ph =
      ⟨t.x1 + t.pw / 2, t.y1 + t.ph / 2, t.x2 + t.pw / 2, t.y2 + t.ph / 2⟩ := by
  simp [rescaleSample, offsetSample, div_self hpw, div_self hph]

theorem suggestConfidence_singleton (t : TSample) (tw th : ℚ) :
    suggestConfidence [t] tw th = 1 / 3 := by
  simp [suggestConfidence, suggest, spreadOf_singleton, confidenceOf]
  norm_num

theorem suggestConfidence_pair_same (t : TSample) (tw th : ℚ) :
    suggestConfidence [t, t] tw th = 1 / 2 := by
  simp [suggestConfidence, suggest, spreadOf_pair_same, confidenceOf]
  norm_num

theorem suggestConfidence_five_same (t : TSample) (tw th : ℚ) :
    suggestConfidence [t, t, t, t, t] tw th = 5 / 7 := by
  simp [suggestConfidence, suggest, spreadOf_five_same, confidenceOf]
  norm_num

theorem suggestConfidence_pair_offset (t : TSample) (hpw : 0 < t.pw) (hph : 0 < t.ph) :
    suggestConfidence [t, offsetSample t] t.pw t.ph = 1 / 4 := by
  obtain ⟨a, b, c, d, pw, ph⟩ := t
  simp only at hpw hph
  have hsp : spreadOf
      [rescaleSample ⟨a, b, c, d, pw, ph⟩ pw ph,
       rescaleSample (offsetSample ⟨a, b, c, d, pw, ph⟩) pw ph] pw ph = 1 / 4 := by
    rw [show rescaleSample ⟨a, b, c, d, pw, ph⟩ pw ph = (⟨a, b, c, d⟩ : Rect) by
        simp [rescaleSample, div_self hpw.ne', div_self hph.ne'],
      show rescaleSample (offsetSample ⟨a, b, c, d, pw, ph⟩) pw ph =
          (⟨a + pw / 2, b + ph / 2, c + pw / 2, d + ph / 2⟩ : Rect) by
        simp [rescaleSample, offsetSample, div_self hpw.ne', div_self hph.ne']]
    unfold spreadOf
    simp only [List.map_cons, List.map_nil]
    rw [meanAbsDev_pair_offset _ _ (by positivity), meanAbsDev_pair_offset _ _ (by positivity),
      meanAbsDev_pair_offset _ _ (by positivity), meanAbsDev_pair_offset _ _ (by positivity)]
    field_simp
    ring
  simp only [suggestConfidence, suggest]
  norm_num
  rw [hsp]
  norm_num [confidenceOf]

/-- Claim C9 (Template Engine modelled from the spec): the suggestion
    confidence lies in [0,1]; adding a second sample identical to the first
    strictly increases it; adding a second sample offset by half the page
    dimensions strictly decreases it; one sample scores below five identical
    samples; and five samples with positive spread score below five identical
    samples. -/
theorem template_confidence_properties :
    (∀ (samples : List TSample) (tw th : ℚ), 0 < tw → 0 < th → samples ≠ [] →
      0 ≤ suggestConfidence samples tw th ∧ suggestConfidence samples tw th ≤ 1) ∧
    (∀ (t : TSample) (tw th : ℚ),
      suggestConfidence [t] tw th < suggestConfidence [t, t] tw th) ∧
    (∀ (t : TSample), 0 < t.pw → 0 < t.ph →
      suggestConfidence [t, offsetSample t] t.pw t.ph < suggestConfidence [t] t.pw t.ph) ∧
    (∀ (t u : TSample) (tw th : ℚ),
      suggestConfidence [t] tw th < suggestConfidence [u, u, u, u, u] tw th) ∧
    (∀ (samples : List TSample) (u : TSample) (tw th : ℚ), samples.length = 5 →
      0 < spreadOf (samples.map fun t => rescaleSample t tw th) tw th →
      suggestConfidence samples tw th < suggestConfidence [u, u, u, u, u] tw th) := by
  refine ⟨?_, ?_, ?_, ?_, ?_⟩
  · intro samples tw th htw hth hne
    have hie : samples.isEmpty = false := by
      rw [List.isEmpty_eq_false]
      exact hne
    have hsp := spreadOf_nonneg (samples.map fun t => rescaleSample t tw th) tw th htw hth
    simp only [suggestConfidence, suggest, hie, Bool.false_eq_true, if_false]
    exact ⟨confidenceOf_nonneg _ _ hsp, confidenceOf_le_one _ _ hsp⟩
  · intro t tw th
    rw [suggestConfidence_singleton, suggestConfidence_pair_same]
    norm_num
  · intro t hpw hph
    rw [suggestConfidence_singleton, suggestConfidence_pair_offset t hpw hph]
    norm_num
  · intro t u tw th
    rw [suggestConfidence_singleton, suggestConfidence_five_same]
    norm_num
  · intro samples u tw th hlen hsp
    have hie : samples.isEmpty = false := by
      rw [List.isEmpty_eq_false]
      intro h
      rw [h] at hlen
      simp at hlen
    rw [suggestConfidence_five_same]
    simp only [suggestConfidence, suggest, hie, Bool.false_eq_true, if_false]
    rw [hlen]
    unfold confidenceOf
    have hlt : (1 : ℚ) / (1 + 4 * spreadOf (samples.map fun t => rescaleSample t tw th) tw th)
        < 1 := by
      rw [div_lt_one (by linarith)]
      linarith
    have h57 : ((5 : ℕ) : ℚ) / (((5 : ℕ) : ℚ) + 2) = 5 / 7 := by norm_num
    rw [h57]
    calc (5 : ℚ) / 7 * (1 / (1 + 4 * spreadOf (samples.map fun t => rescaleSample t tw th) tw th))
        < 5 / 7 * 1 := by
          exact mul_lt_mul_of_pos_left hlt (by norm_num)
      _ = 5 / 7 := by norm_num

/-- Witness for C9 at concrete samples on a 595 by 842 page. -/
theorem template_confidence_properties_witness :
    (0 ≤ suggestConfidence [⟨10, 20, 110, 60, 595, 842⟩] 595 842 ∧
      suggestConfidence [⟨10, 20, 110, 60, 595, 842⟩] 595 842 ≤ 1) ∧
    suggestConfidence [⟨10, 20, 110, 60, 595, 842⟩,
        offsetSample ⟨10, 20, 110, 60, 595, 842⟩] 595 842 <
      suggestConfidence [⟨10, 20, 110, 60, 595, 842⟩] 595 842 ∧
    suggestConfidence [⟨0, 0, 100, 100, 595, 842⟩, ⟨50, 60, 150, 160, 595, 842⟩,
        ⟨100, 120, 200, 220, 595, 842⟩, ⟨150, 180, 250, 280, 595, 842⟩,
        ⟨200, 240, 300, 340, 595, 842⟩] 595 842 <
      suggestConfidence [⟨10, 20, 110, 60, 595, 842⟩, ⟨10, 20, 110, 60, 595, 842⟩,
        ⟨10, 20, 110, 60, 595, 842⟩, ⟨10, 20, 110, 60, 595, 842⟩,
        ⟨10, 20, 110, 60, 595, 842⟩] 595 842 :=
  ⟨template_confidence_properties.1 _ 595 842 (by norm_num) (by norm_num) (by simp),
   template_confidence_properties.2.2.1 ⟨10, 20, 110, 60, 595, 842⟩
     (by norm_num) (by norm_num),
   template_confidence_properties.2.2.2.2 _ _ 595 842 rfl
     (by norm_num [spreadOf, meanAbsDev, qMean, rescaleSample, abs, max_def])⟩

/-- Counterexample to claim C10: the code trims the existing field value
    before appending, so for a field value with trailing whitespace the new
    value is not the old value followed by the separator and the new text:
    applying "y" to a "title" field holding "x " yields "x y", not "x  y". -/
theorem apply_text_append_counterexample :
    defaultApplyExtractedText (fun t => t) "title" "x " "y" = "x y" ∧
    ¬ (defaultApplyExtractedText (fun t => t) "title" "x " "y" =
        "x " ++ separatorFor "title" ++ "y") := by
  constructor
  · decide
  · decide

/-- Claim C10 as amended: when the target field is non-blank the new value is
    the TRIMMED existing value, then the field-class separator, then the
    processed text; the separator is a newline for references_ru and
    references_en, a comma-space for keywords and keywords_en, and a single
    space for every other field; when the field is blank the field is set to
    the processed text alone. -/
theorem apply_text_separators :
    (∀ (proc : String → String) (fieldId fieldValue text : String),
      ¬ fieldId = "" → ¬ text = "" → ¬ jsTrim fieldValue = "" →
      defaultApplyExtractedText proc fieldId fieldValue text =
        jsTrim fieldValue ++ separatorFor fieldId ++ proc (jsTrim text)) ∧
    (separatorFor "references_ru" = "\n" ∧ separatorFor "references_en" = "\n" ∧
     separatorFor "keywords" = ", " ∧ separatorFor "keywords_en" = ", ") ∧
    (∀ fieldId : String, ¬ fieldId = "references_ru" → ¬ fieldId = "references_en" →
      ¬ fieldId = "keywords" → ¬ fieldId = "keywords_en" → separatorFor fieldId = " ") ∧
    (∀ (proc : String → String) (fieldId fieldValue text : String),
      ¬ fieldId = "" → ¬ text = "" → jsTrim fieldValue = "" →
      defaultApplyExtractedText proc fieldId fieldValue text = proc (jsTrim text)) := by
  refine ⟨?_, ⟨rfl, rfl, rfl, rfl⟩, ?_, ?_⟩
  · intro proc fieldId fieldValue text hf ht hv
    simp only [defaultApplyExtractedText]
    rw [if_neg (by tauto), if_pos hv]
  · intro fieldId h1 h2 h3 h4
    simp only [separatorFor]
    rw [if_neg (by tauto), if_neg (by tauto)]
  · intro proc fieldId fieldValue text hf ht hv
    simp only [defaultApplyExtractedText]
    rw [if_neg (by tauto), if_neg (not_not_intro hv)]

/-- Witness for C10: appending to a non-blank "keywords" field uses the
    comma-space separator. -/
theorem apply_text_separators_witness :
    defaultApplyExtractedText (fun t => t) "keywords" "alpha" "beta" =
      jsTrim "alpha" ++ separatorFor "keywords" ++ (fun t => t) (jsTrim "beta") :=
  apply_text_separators.1 (fun t => t) "keywords" "alpha" "beta"
    (by decide) (by decide) (by decide)
